import Mathlib

set_option maxHeartbeats 1000000
set_option maxRecDepth 100000
set_option linter.unusedVariables false

/-!
Shallow embedding of the content-generation-and-publishing bot:
the `Post` aggregate and its value objects (`app/domain/models/post.py`),
the multi-platform publish fan-out
(`app/infrastructure/services/multi_platform_publisher.py`),
the content generator fallback behaviour
(`app/infrastructure/services/openai_content_generator.py`),
the four use cases (`app/application/use_cases/*.py`) and the
publication-record handling of the repository
(`app/infrastructure/repositories/sqlalchemy_post_repository.py`).

Python exceptions are modelled with `Except String`; external collaborators
(the AI backend, the per-platform publishers, the database session) are passed
in as outcome values.  Timestamps (`datetime.utcnow()`) are modelled as an
explicit `now : Nat` argument; UUIDs as `Nat`.
-/

/-- ASCII whitespace characters removed by Python's `str.strip()`. -/
def pyIsSpace (c : Char) : Bool :=
  c = ' ' || c = '\t' || c = '\n' || c = '\r' || c = '\x0b' || c = '\x0c'

/-- Python's `str.strip()`: drop leading and trailing whitespace. -/
def pyStrip (s : String) : String :=
  String.mk (((s.data.dropWhile pyIsSpace).reverse.dropWhile pyIsSpace).reverse)

/-- Python truthiness test `not s.strip()`: the string is empty or all whitespace. -/
def pyIsBlank (s : String) : Bool :=
  pyStrip s = ""

/-- `PostStatus` enum from `app/domain/models/post.py`. -/
inductive PostStatus
  | draft
  | confirmed
  | published
  | failed
  deriving DecidableEq, Repr

/-- `Platform` enum from `app/domain/models/post.py`. -/
inductive Platform
  | medium
  | dev_to
  | reddit
  deriving DecidableEq, Repr

/-- The `.value` string of the `Platform` str-enum. -/
def platformValue : Platform → String
  | Platform.medium => "medium"
  | Platform.dev_to => "dev_to"
  | Platform.reddit => "reddit"

/-- `PostContent` dataclass fields from `app/domain/models/post.py`. -/
structure PostContent where
  title : String
  body : String
  topic : String
  tags : List String
  deriving DecidableEq, Repr

/-- `PostContent.__post_init__`: raises on blank title, blank body, or a title
longer than 200 characters, in that order; otherwise construction succeeds. -/
def PostContent.validate (c : PostContent) : Except String PostContent :=
  if pyIsBlank c.title then Except.error "Title cannot be empty"
  else if pyIsBlank c.body then Except.error "Body cannot be empty"
  else if c.title.length > 200 then Except.error "Title too long"
  else Except.ok c

/-- `PublicationResult` dataclass from `app/domain/models/post.py`. -/
structure PublicationResult where
  platform : Platform
  success : Bool
  platform_post_id : Option String := none
  url : Option String := none
  error_message : Option String := none
  published_at : Option Nat := none
  deriving DecidableEq, Repr

/-- The `Post` aggregate root from `app/domain/models/post.py`. -/
structure Post where
  id : Nat
  content : PostContent
  user_id : Nat
  status : PostStatus
  created_at : Nat
  updated_at : Nat
  publications : List PublicationResult
  deriving DecidableEq, Repr

/-- `Post.confirm`: only draft posts can be confirmed. -/
def Post.confirm (p : Post) (now : Nat) : Except String Post :=
  if p.status ≠ PostStatus.draft then Except.error "Only draft posts can be confirmed"
  else Except.ok { p with status := PostStatus.confirmed, updated_at := now }

/-- `Post.add_publication_result`: append the result and bump `updated_at`. -/
def Post.add_publication_result (p : Post) (r : PublicationResult) (now : Nat) : Post :=
  { p with publications := p.publications ++ [r], updated_at := now }

/-- `Post.mark_as_published`: requires Confirmed status and at least one
successful publication. -/
def Post.mark_as_published (p : Post) (now : Nat) : Except String Post :=
  if p.status ≠ PostStatus.confirmed then Except.error "Only confirmed posts can be published"
  else if (p.publications.filter (fun r => r.success)).isEmpty then
    Except.error "No successful publications found"
  else Except.ok { p with status := PostStatus.published, updated_at := now }

/-- `Post.mark_as_failed`: sets the status to Failed unconditionally; the
`error_message` argument is accepted but not stored, and no guard is checked. -/
def Post.mark_as_failed (p : Post) (error_message : String) (now : Nat) : Post :=
  { p with status := PostStatus.failed, updated_at := now }

/-- `Post.update_content`: only draft posts can be updated. -/
def Post.update_content (p : Post) (new_content : PostContent) (now : Nat) : Except String Post :=
  if p.status ≠ PostStatus.draft then Except.error "Only draft posts can be updated"
  else Except.ok { p with content := new_content, updated_at := now }

/-- `Post.get_successful_publications`. -/
def Post.get_successful_publications (p : Post) : List PublicationResult :=
  p.publications.filter (fun r => r.success)

/-! ## Content generator (`app/infrastructure/services/openai_content_generator.py`)

The Together AI backend call is modelled as an `Except String String` outcome:
`Except.ok response` is the raw text of the model response, `Except.error e`
is an exception raised by the call.  An `Except.error` returned by a
definition below models a Python exception escaping the function. -/

/-- Loop body of `OpenAIContentGenerator._parse_response`: walks the lines,
keeping the last `TITLE:` line (stripped, markers removed) and accumulating
lines after a `CONTENT:` marker. -/
def parseLines : List String → String → String → Bool → String × String
  | [], title, body, _ => (title, body)
  | line :: rest, title, body, capturing =>
    if line.startsWith "TITLE:" || line.startsWith "ЗАГОЛОВОК:" then
      parseLines rest (pyStrip ((line.replace "TITLE:" "").replace "ЗАГОЛОВОК:" "")) body capturing
    else if line.startsWith "CONTENT:" || line.startsWith "КОНТЕНТ:" then
      parseLines rest title body true
    else if capturing then
      parseLines rest title (body ++ line ++ "\n") capturing
    else
      parseLines rest title body capturing

/-- `OpenAIContentGenerator._parse_response`: extract title and body, with
defaults when a marker is missing or its text is empty. -/
def parse_response (content : String) : String × String :=
  let tb := parseLines (content.splitOn "\n") "" "" false
  ((if tb.1 = "" then "Generated article" else tb.1),
   (if pyStrip tb.2 = "" then "Content will be added later" else pyStrip tb.2))

/-- Fallback `PostContent` built in the `except` clause of
`OpenAIContentGenerator.generate_content`; its construction runs
`PostContent.__post_init__`, so it can itself raise. -/
def fallbackContent (topic : String) (tags : Option (List String)) : Except String PostContent :=
  PostContent.validate
    { title := "Article on topic: " ++ topic
    , body := "# " ++ topic ++ "\n\nArticle on topic \x27" ++ topic ++ "\x27 will be created later."
    , topic := topic
    , tags := tags.getD [] }

/-- `OpenAIContentGenerator.generate_content`: on a backend exception, or on a
validation failure of the parsed content (both caught by the `except` clause),
return the fallback content; the fallback construction itself may raise. -/
def generate_content (backend : Except String String) (topic : String)
    (tags : Option (List String)) : Except String PostContent :=
  match backend with
  | Except.error _ => fallbackContent topic tags
  | Except.ok response =>
    let tb := parse_response response
    match PostContent.validate { title := tb.1, body := tb.2, topic := topic, tags := tags.getD [] } with
    | Except.ok c => Except.ok c
    | Except.error _ => fallbackContent topic tags

/-! ## Multi-platform fan-out (`app/infrastructure/services/multi_platform_publisher.py`)

The static configuration is modelled as
`cfg : Platform → Option (Except String PublicationResult)`:
`none` means no publisher is configured for the platform, and
`some outcome` is the behaviour of the configured publisher's `publish` call
for this post (a returned result, or a raised exception). -/

/-- A failed `PublicationResult` carrying an error message. -/
def failedResult (p : Platform) (msg : String) : PublicationResult :=
  { platform := p, success := false, error_message := some msg }

/-- The "not configured" message synthesized by `MultiPlatformPublisher.publish`. -/
def notConfiguredMessage (p : Platform) : String :=
  "Publisher for " ++ platformValue p ++ " not configured"

/-- One iteration of the fan-out loop: a missing publisher yields a synthetic
failed result without a call; a raising publisher is caught and converted to a
failed result with the exception's message; otherwise the call's result is used. -/
def attemptPublish (cfg : Platform → Option (Except String PublicationResult))
    (p : Platform) : PublicationResult :=
  match cfg p with
  | none => failedResult p (notConfiguredMessage p)
  | some (Except.error e) => failedResult p e
  | some (Except.ok r) => r

/-- Python dict assignment `d[k] = v`: replace the value in place if the key
exists, otherwise append the pair. -/
def dictInsert (k : Platform) (v : PublicationResult) :
    List (Platform × PublicationResult) → List (Platform × PublicationResult)
  | [] => [(k, v)]
  | (k0, v0) :: rest => if k0 = k then (k, v) :: rest else (k0, v0) :: dictInsert k v rest

/-- Python dict lookup `d[k]`. -/
def dictLookup (k : Platform) : List (Platform × PublicationResult) → Option PublicationResult
  | [] => none
  | (k0, v) :: rest => if k0 = k then some v else dictLookup k rest

/-- The fan-out loop of `MultiPlatformPublisher.publish`: `results[platform] = ...`
for each requested platform in order. -/
def publishAll (cfg : Platform → Option (Except String PublicationResult))
    (acc : List (Platform × PublicationResult)) :
    List Platform → List (Platform × PublicationResult)
  | [] => acc
  | p :: rest => publishAll cfg (dictInsert p (attemptPublish cfg p) acc) rest

/-- `MultiPlatformPublisher.publish`: returns the `results` dict built by the
fan-out loop, starting from an empty dict. -/
def MultiPlatformPublisher.publish (cfg : Platform → Option (Except String PublicationResult))
    (platforms : List Platform) : List (Platform × PublicationResult) :=
  publishAll cfg [] platforms

/-! ## Use cases (`app/application/use_cases/*.py`)

Each `execute` is embedded as a total function of the collaborator outcomes.
`getPost` is the repository lookup result, `saveOutcome` models whether
`repository.save` / `session.commit` raise.  Use cases that persist a post
also return the post instance passed to `save` (or `none` when nothing was
saved), so theorems can speak about the persisted state. -/

/-- `CreatePostResult` dataclass. -/
structure CreatePostResult where
  post_id : String
  content : PostContent
  success : Bool
  error_message : Option String := none
  deriving DecidableEq, Repr

/-- `CreatePostUseCase.execute`: the `try` body generates content and saves a
new draft post; the `except` clause builds its failure result with
`PostContent("", "", "", [])`, whose own validation runs first and can raise
out of the handler. -/
def createPost_execute (gen : Except String PostContent) (saveOutcome : Except String Unit)
    (newId : Nat) : Except String CreatePostResult :=
  let body : Except String CreatePostResult :=
    match gen with
    | Except.error e => Except.error e
    | Except.ok content =>
      match saveOutcome with
      | Except.error e => Except.error e
      | Except.ok _ =>
        Except.ok { post_id := toString newId, content := content, success := true }
  match body with
  | Except.ok r => Except.ok r
  | Except.error e =>
    match PostContent.validate { title := "", body := "", topic := "", tags := [] } with
    | Except.error e2 => Except.error e2
    | Except.ok c =>
      Except.ok { post_id := "", content := c, success := false, error_message := some e }

/-- `ConfirmPostResult` dataclass. -/
structure ConfirmPostResult where
  success : Bool
  error_message : Option String := none
  deriving DecidableEq, Repr

/-- `ConfirmPostUseCase.execute`: load the post, call `confirm()`, save.  The
command carries only a post id; no caller identity is received or compared. -/
def confirmPost_execute (getPost : Option Post) (saveOutcome : Except String Unit)
    (now : Nat) : ConfirmPostResult × Option Post :=
  match getPost with
  | none => ({ success := false, error_message := some "Post not found" }, none)
  | some post =>
    match post.confirm now with
    | Except.error e => ({ success := false, error_message := some e }, none)
    | Except.ok post2 =>
      match saveOutcome with
      | Except.error e => ({ success := false, error_message := some e }, none)
      | Except.ok _ => ({ success := true }, some post2)

/-- `RegenerateContentResult` dataclass. -/
structure RegenerateContentResult where
  success : Bool
  content : Option PostContent := none
  error_message : Option String := none
  deriving DecidableEq, Repr

/-- `RegenerateContentUseCase.execute`: load the post, reject non-draft status,
regenerate via the generator, `update_content`, save. -/
def regenerateContent_execute (getPost : Option Post) (gen : Except String PostContent)
    (saveOutcome : Except String Unit) (now : Nat) : RegenerateContentResult × Option Post :=
  match getPost with
  | none => ({ success := false, error_message := some "Post not found" }, none)
  | some post =>
    if post.status ≠ PostStatus.draft then
      ({ success := false, error_message := some "Only draft posts can be regenerated" }, none)
    else
      match gen with
      | Except.error e => ({ success := false, error_message := some e }, none)
      | Except.ok newContent =>
        match post.update_content newContent now with
        | Except.error e => ({ success := false, error_message := some e }, none)
        | Except.ok post2 =>
          match saveOutcome with
          | Except.error e => ({ success := false, error_message := some e }, none)
          | Except.ok _ => ({ success := true, content := some newContent }, some post2)

/-- `PublishPostResult` dataclass. -/
structure PublishPostResult where
  success : Bool
  publication_results : List PublicationResult
  error_message : Option String := none
  deriving DecidableEq, Repr

/-- The per-platform loop of `PublishPostUseCase.execute`: a returned result is
appended to the results list and to the post; a raised exception is converted
to a failed result appended to the results list only. -/
def publishLoop (pub : Platform → Except String PublicationResult) (now : Nat) :
    List Platform → List PublicationResult → Post → List PublicationResult × Post
  | [], acc, post => (acc, post)
  | p :: rest, acc, post =>
    match pub p with
    | Except.ok r => publishLoop pub now rest (acc ++ [r]) (post.add_publication_result r now)
    | Except.error e => publishLoop pub now rest (acc ++ [failedResult p e]) post

/-- Python `command.platforms or [Platform.MEDIUM, Platform.DEV_TO]`: both a
missing and an empty platform list fall back to the two-platform default. -/
def platformsOrDefault : Option (List Platform) → List Platform
  | none => [Platform.medium, Platform.dev_to]
  | some [] => [Platform.medium, Platform.dev_to]
  | some (p :: rest) => p :: rest

/-- `PublishPostUseCase.execute`: load the post, require Confirmed status,
default the platform list when absent or empty (Python `or`), run the
per-platform loop, save the post, and succeed iff any result succeeded.
The post's status is never changed by this use case. -/
def publishPost_execute (getPost : Option Post)
    (pub : Platform → Except String PublicationResult) (saveOutcome : Except String Unit)
    (platforms : Option (List Platform)) (now : Nat) : PublishPostResult × Option Post :=
  match getPost with
  | none =>
    ({ success := false, publication_results := [], error_message := some "Post not found" }, none)
  | some post =>
    if post.status ≠ PostStatus.confirmed then
      ({ success := false, publication_results := []
       , error_message := some "Post must be confirmed before publishing" }, none)
    else
      let rp := publishLoop pub now (platformsOrDefault platforms) [] post
      match saveOutcome with
      | Except.error e =>
        ({ success := false, publication_results := [], error_message := some e }, none)
      | Except.ok _ =>
        if rp.1.any (fun r => r.success) then
          ({ success := true, publication_results := rp.1 }, some rp.2)
        else
          ({ success := false, publication_results := rp.1
           , error_message := some "Failed to publish to any platform" }, some rp.2)

/-! ## Repository publication records
(`app/infrastructure/repositories/sqlalchemy_post_repository.py`)

`save` walks the post's in-memory publications; for each one it selects the
first stored `PublicationEntity` with the same `post_id` and `platform` and
inserts a new entity only when none exists — an existing record is left
untouched.  The session autoflushes pending inserts before each select, so an
entity added earlier in the same `save` is visible to later iterations. -/

/-- `PublicationEntity` row from `app/infrastructure/database/models.py`. -/
structure PubEntity where
  post_id : Nat
  platform : Platform
  success : Bool
  platform_post_id : Option String
  url : Option String
  error_message : Option String
  published_at : Option Nat
  deriving DecidableEq, Repr

/-- The `PublicationEntity` built from a `PublicationResult` in `save`. -/
def entityOf (postId : Nat) (r : PublicationResult) : PubEntity :=
  { post_id := postId, platform := r.platform, success := r.success
  , platform_post_id := r.platform_post_id, url := r.url
  , error_message := r.error_message, published_at := r.published_at }

/-- The `select ... .first()` on publication rows: first stored entity with the
given post id and platform. -/
def findRecord (postId : Nat) (pl : Platform) : List PubEntity → Option PubEntity
  | [] => none
  | e :: rest =>
    if e.post_id = postId ∧ e.platform = pl then some e else findRecord postId pl rest

/-- The publications loop of `SqlAlchemyPostRepository.save` over the stored
table: insert an entity for a publication only when no record with the same
post id and platform exists yet. -/
def savePublications (postId : Nat) : List PubEntity → List PublicationResult → List PubEntity
  | stored, [] => stored
  | stored, pub :: rest =>
    match findRecord postId pub.platform stored with
    | some _ => savePublications postId stored rest
    | none => savePublications postId (stored ++ [entityOf postId pub]) rest

/-- Number of stored records for a given post id and platform. -/
def countRecords (postId : Nat) (pl : Platform) : List PubEntity → Nat
  | [] => 0
  | e :: rest =>
    (if e.post_id = postId ∧ e.platform = pl then 1 else 0) + countRecords postId pl rest

/-! ## Fixtures used by witnesses and counterexamples -/

/-- A small valid content value. -/
def sampleContent : PostContent :=
  { title := "Hello", body := "World", topic := "ai", tags := ["x"] }

/-- A draft post owned by user 1. -/
def samplePostDraft : Post :=
  { id := 1, content := sampleContent, user_id := 1, status := PostStatus.draft
  , created_at := 0, updated_at := 0, publications := [] }

/-- The same post in Confirmed status. -/
def samplePostConfirmed : Post :=
  { samplePostDraft with status := PostStatus.confirmed }

/-! ## Claim theorems -/

/-- C7: for every post, `confirm()` succeeds iff the current status is Draft,
in which case the new status is Confirmed and every other field except
`updated_at` is unchanged; in any other status it raises and hence leaves the
post unchanged. -/
theorem confirm_succeeds_iff_draft (p : Post) (now : Nat) :
    ((∃ q, p.confirm now = Except.ok q) ↔ p.status = PostStatus.draft) ∧
    (∀ q, p.confirm now = Except.ok q →
      q.status = PostStatus.confirmed ∧ q.content = p.content ∧ q.id = p.id ∧
      q.user_id = p.user_id ∧ q.publications = p.publications) ∧
    (p.status ≠ PostStatus.draft →
      p.confirm now = Except.error "Only draft posts can be confirmed") := by
  unfold Post.confirm
  by_cases h : p.status = PostStatus.draft <;> simp [h]

/-- Witness for C7 at concrete posts: a draft post confirms, a confirmed post
is rejected. -/
theorem confirm_succeeds_iff_draft_witness :
    (∃ q, samplePostDraft.confirm 5 = Except.ok q) ∧
    samplePostConfirmed.confirm 5 = Except.error "Only draft posts can be confirmed" :=
  ⟨(confirm_succeeds_iff_draft samplePostDraft 5).1.mpr rfl,
   (confirm_succeeds_iff_draft samplePostConfirmed 5).2.2 (by decide)⟩

/-- C8: for every post and every valid content value, `update_content` succeeds
iff the current status is Draft, and on success the stored content equals the
argument exactly; otherwise it raises. -/
theorem update_content_succeeds_iff_draft (p : Post) (c : PostContent) (now : Nat)
    (hv : PostContent.validate c = Except.ok c) :
    ((∃ q, p.update_content c now = Except.ok q) ↔ p.status = PostStatus.draft) ∧
    (∀ q, p.update_content c now = Except.ok q →
      q.content = c ∧ q.status = p.status ∧ q.id = p.id ∧ q.user_id = p.user_id ∧
      q.publications = p.publications) ∧
    (p.status ≠ PostStatus.draft →
      p.update_content c now = Except.error "Only draft posts can be updated") := by
  unfold Post.update_content
  by_cases h : p.status = PostStatus.draft <;> simp [h]

/-- Witness for C8 at a concrete draft post and a concrete valid content. -/
theorem update_content_succeeds_iff_draft_witness :
    ∃ q, samplePostDraft.update_content sampleContent 4 = Except.ok q :=
  (update_content_succeeds_iff_draft samplePostDraft sampleContent 4 (by rfl)).1.mpr rfl

/-- C4 counterexample: a Draft post is outside the claimed guard (its status is
not Confirmed), yet `mark_as_failed` does not fail — it changes the status to
Failed. -/
theorem mark_as_failed_unguarded_cex :
    samplePostDraft.status = PostStatus.draft ∧
    samplePostDraft.status ≠ PostStatus.confirmed ∧
    (samplePostDraft.mark_as_failed "all platforms failed" 3).status = PostStatus.failed ∧
    (samplePostDraft.mark_as_failed "all platforms failed" 3).status ≠ samplePostDraft.status :=
  ⟨rfl, by decide, rfl, by decide⟩

/-- C4 (amended): `mark_as_failed` enforces no guard at all — from every status
it succeeds, setting the status to Failed, bumping `updated_at` and leaving the
other fields (including the publication history) unchanged; no
invalid-state-transition is ever reported. -/
theorem mark_as_failed_always_sets_failed (p : Post) (msg : String) (now : Nat) :
    (p.mark_as_failed msg now).status = PostStatus.failed ∧
    (p.mark_as_failed msg now).content = p.content ∧
    (p.mark_as_failed msg now).publications = p.publications ∧
    (p.mark_as_failed msg now).updated_at = now :=
  ⟨rfl, rfl, rfl, rfl⟩

/-- C3: `ConfirmPostCommand` carries only a post id — the use case receives no
caller identity and performs no ownership comparison.  Evaluating it on a draft
post owned by user 1 shows the confirmation succeeds and is persisted no matter
who issued the command. -/
theorem confirmPost_no_ownership_check :
    samplePostDraft.user_id = 1 ∧
    (confirmPost_execute (some samplePostDraft) (Except.ok ()) 7).1.success = true ∧
    ((confirmPost_execute (some samplePostDraft) (Except.ok ()) 7).2.map Post.status) =
      some PostStatus.confirmed :=
  ⟨rfl, rfl, rfl⟩

/-- C2: when any collaborator of `CreatePostUseCase.execute` raises, the
`except` clause builds its failure result with `PostContent("", "", "", [])`;
that construction fails its own `__post_init__` validation, so the handler
itself raises `ValueError("Title cannot be empty")` and the exception escapes
the use-case boundary instead of being returned as a failure result. -/
theorem createPost_handler_raises :
    createPost_execute (Except.error "generator down") (Except.ok ()) 1 =
      Except.error "Title cannot be empty" ∧
    createPost_execute (Except.ok sampleContent) (Except.error "db down") 1 =
      Except.error "Title cannot be empty" :=
  ⟨rfl, rfl⟩

/-! ## C9: generator fallback -/

/-- A non-whitespace member of a list survives `dropWhile pyIsSpace`. -/
theorem mem_dropWhile_of_not_space {l : List Char} {c : Char} (hc : c ∈ l)
    (hp : pyIsSpace c = false) : c ∈ l.dropWhile pyIsSpace := by
  have hsplit := List.takeWhile_append_dropWhile pyIsSpace l
  rw [← hsplit] at hc
  rcases List.mem_append.mp hc with h | h
  · have := List.mem_takeWhile_imp h
    rw [hp] at this
    exact absurd this (by simp)
  · exact h

/-- A string containing a non-whitespace character is not blank in the Python
`not s.strip()` sense. -/
theorem pyIsBlank_false_of_mem {s : String} {c : Char} (hc : c ∈ s.data)
    (hp : pyIsSpace c = false) : pyIsBlank s = false := by
  have h1 : c ∈ s.data.dropWhile pyIsSpace := mem_dropWhile_of_not_space hc hp
  have h2 : c ∈ (s.data.dropWhile pyIsSpace).reverse := List.mem_reverse.mpr h1
  have h3 : c ∈ (s.data.dropWhile pyIsSpace).reverse.dropWhile pyIsSpace :=
    mem_dropWhile_of_not_space h2 hp
  have h4 : ((s.data.dropWhile pyIsSpace).reverse.dropWhile pyIsSpace).reverse ≠ [] := by
    intro h
    rw [List.reverse_eq_nil_iff] at h
    rw [h] at h3
    exact absurd h3 (List.not_mem_nil c)
  simp only [pyIsBlank, decide_eq_false_iff_not]
  intro hEq
  exact h4 (congrArg String.data hEq)

/-- C9 (amended): when the backend call raises, `generate_content` returns the
fallback content — whose `topic` field equals the input topic — provided the
topic is at most 182 characters long, so that the fallback title
`"Article on topic: " ++ topic` stays within the 200-character bound checked by
`PostContent.__post_init__`; for longer topics the fallback construction itself
raises (see the counterexample). -/
theorem generate_fallback_topic_matches (err : String) (topic : String)
    (tags : Option (List String)) (h : topic.length ≤ 182) :
    ∃ c, generate_content (Except.error err) topic tags = Except.ok c ∧
      c.topic = topic ∧ c.title = "Article on topic: " ++ topic := by
  have ht : pyIsBlank ("Article on topic: " ++ topic) = false := by
    apply pyIsBlank_false_of_mem (c := 'A')
    · rw [String.data_append]
      exact List.mem_append_left _ (by decide)
    · decide
  have hb : pyIsBlank ("# " ++ topic ++
      "\n\nArticle on topic \x27" ++ topic ++ "\x27 will be created later.") = false := by
    apply pyIsBlank_false_of_mem (c := '#')
    · simp only [String.data_append]
      exact List.mem_append_left _ (List.mem_append_left _ (List.mem_append_left _
        (List.mem_append_left _ (by decide))))
    · decide
  have h18 : ("Article on topic: " : String).length = 18 := by decide
  refine ⟨{ title := "Article on topic: " ++ topic
          , body := "# " ++ topic ++
              "\n\nArticle on topic \x27" ++ topic ++ "\x27 will be created later."
          , topic := topic
          , tags := tags.getD [] }, ?_, rfl, rfl⟩
  simp [generate_content, fallbackContent, PostContent.validate, ht, hb]
  rw [h18]
  omega

/-- Witness for C9 (amended) at a concrete short topic. -/
theorem generate_fallback_topic_matches_witness :
    ∃ c, generate_content (Except.error "backend down") "ai" none = Except.ok c ∧
      c.topic = "ai" ∧ c.title = "Article on topic: " ++ "ai" :=
  generate_fallback_topic_matches "backend down" "ai" none (by decide)

/-- A 183-character topic. -/
def longTopic : String := String.mk (List.replicate 183 'a')

/-- C9 counterexample: for a 183-character topic, the fallback title exceeds
200 characters, so the `except` clause of `generate_content` raises
`ValueError("Title too long")` from `PostContent.__post_init__` — the backend
failure does escape to the caller. -/
theorem generate_fallback_long_topic_cex :
    generate_content (Except.error "backend down") longTopic none =
      Except.error "Title too long" := by
  rfl

/-! ## C1: publish use case -/

/-- The per-platform publish loop never changes the post's status: results are
appended to the publication history only. -/
theorem publishLoop_status_preserved (pub : Platform → Except String PublicationResult)
    (now : Nat) : ∀ (ps : List Platform) (acc : List PublicationResult) (post : Post),
    (publishLoop pub now ps acc post).2.status = post.status := by
  intro ps
  induction ps with
  | nil => intro acc post; rfl
  | cons p rest ih =>
    intro acc post
    unfold publishLoop
    cases pub p with
    | ok r => exact ih (acc ++ [r]) (post.add_publication_result r now)
    | error e => exact ih (acc ++ [failedResult p e]) post

/-- C1 (amended): for a post loaded in Confirmed status, `PublishPost` succeeds
iff at least one per-platform result succeeded, and the post is persisted —
but its status is left at Confirmed: the use case never calls
`mark_as_published` or `mark_as_failed`, so no transition to Published or
Failed happens. -/
theorem publishPost_success_iff_any (post : Post) (hc : post.status = PostStatus.confirmed)
    (pub : Platform → Except String PublicationResult) (platforms : Option (List Platform))
    (now : Nat) :
    ((publishPost_execute (some post) pub (Except.ok ()) platforms now).1.success = true ↔
      ((publishPost_execute (some post) pub (Except.ok ()) platforms now).1.publication_results.any
        (fun r => r.success)) = true) ∧
    (∃ saved, (publishPost_execute (some post) pub (Except.ok ()) platforms now).2 = some saved ∧
      saved.status = PostStatus.confirmed) := by
  have hstat : (publishLoop pub now (platformsOrDefault platforms) [] post).2.status =
      PostStatus.confirmed :=
    (publishLoop_status_preserved pub now (platformsOrDefault platforms) [] post).trans hc
  simp only [publishPost_execute]
  rw [if_neg (by simp [hc])]
  cases hAny : (publishLoop pub now (platformsOrDefault platforms) [] post).1.any
      (fun r => r.success) with
  | true => simp [hAny, hstat]
  | false => simp [hAny, hstat]

/-- A publisher behaviour where Medium fails with a result, Dev.to succeeds,
and Reddit raises. -/
def pubOneSuccess : Platform → Except String PublicationResult
  | Platform.medium => Except.ok (failedResult Platform.medium "rate limited")
  | Platform.dev_to =>
    Except.ok { platform := Platform.dev_to, success := true, url := some "https://dev.to/x" }
  | Platform.reddit => Except.error "no reddit token"

/-- Witness for C1 (amended) at a concrete confirmed post and publisher. -/
theorem publishPost_success_iff_any_witness :
    ((publishPost_execute (some samplePostConfirmed) pubOneSuccess (Except.ok ()) none 9).1.success
        = true ↔
      ((publishPost_execute (some samplePostConfirmed) pubOneSuccess
          (Except.ok ()) none 9).1.publication_results.any (fun r => r.success)) = true) ∧
    (∃ saved,
      (publishPost_execute (some samplePostConfirmed) pubOneSuccess (Except.ok ()) none 9).2 =
        some saved ∧ saved.status = PostStatus.confirmed) :=
  publishPost_success_iff_any samplePostConfirmed rfl pubOneSuccess none 9

/-- C1 counterexample: fan-out over the default platforms `[Medium, Dev.to]`
where Medium fails and Dev.to succeeds yields overall success `true`, yet the
persisted post's status is Confirmed, not Published — the claimed transition
does not happen. -/
theorem publishPost_no_transition_cex :
    (publishPost_execute (some samplePostConfirmed) pubOneSuccess (Except.ok ()) none 9).1.success
      = true ∧
    ((publishPost_execute (some samplePostConfirmed) pubOneSuccess (Except.ok ()) none 9).2.map
      Post.status) = some PostStatus.confirmed ∧
    PostStatus.confirmed ≠ PostStatus.published :=
  ⟨rfl, rfl, by decide⟩

/-! ## C5 and C6: fan-out result shape -/

/-- The requested platforms in first-occurrence order, duplicates removed —
the key order a Python dict ends up with. -/
def firstKeys (seen : List Platform) : List Platform → List Platform
  | [] => []
  | p :: rest => if p ∈ seen then firstKeys seen rest else p :: firstKeys (p :: seen) rest

theorem dictInsert_keys (k : Platform) (v : PublicationResult) :
    ∀ d : List (Platform × PublicationResult), (dictInsert k v d).map Prod.fst =
      if k ∈ d.map Prod.fst then d.map Prod.fst else d.map Prod.fst ++ [k] := by
  intro d
  induction d with
  | nil => simp [dictInsert]
  | cons kv rest ih =>
    obtain ⟨k0, v0⟩ := kv
    by_cases h : k0 = k
    · subst h
      simp [dictInsert]
    · simp only [dictInsert, if_neg h, List.map_cons]
      rw [ih]
      by_cases h2 : k ∈ rest.map Prod.fst
      · rw [if_pos h2, if_pos (by simp [h2])]
      · rw [if_neg h2, if_neg (by simp [h2]; exact fun hh => h hh.symm), List.cons_append]

theorem firstKeys_congr : ∀ (l s1 s2 : List Platform),
    (∀ x, x ∈ s1 ↔ x ∈ s2) → firstKeys s1 l = firstKeys s2 l := by
  intro l
  induction l with
  | nil => intro s1 s2 h; rfl
  | cons p rest ih =>
    intro s1 s2 h
    simp only [firstKeys]
    by_cases hp : p ∈ s1
    · rw [if_pos hp, if_pos ((h p).mp hp)]
      exact ih s1 s2 h
    · rw [if_neg hp, if_neg (fun hh => hp ((h p).mpr hh))]
      congr 1
      apply ih
      intro x
      simp [h x]

theorem publishAll_keys (cfg : Platform → Option (Except String PublicationResult)) :
    ∀ (ps : List Platform) (acc : List (Platform × PublicationResult)),
    (publishAll cfg acc ps).map Prod.fst =
      acc.map Prod.fst ++ firstKeys (acc.map Prod.fst) ps := by
  intro ps
  induction ps with
  | nil => intro acc; simp [publishAll, firstKeys]
  | cons p rest ih =>
    intro acc
    simp only [publishAll]
    rw [ih, dictInsert_keys]
    by_cases hp : p ∈ acc.map Prod.fst
    · rw [if_pos hp]
      simp only [firstKeys]
      rw [if_pos hp]
    · rw [if_neg hp]
      simp only [firstKeys]
      rw [if_neg hp]
      rw [firstKeys_congr rest (acc.map Prod.fst ++ [p]) (p :: acc.map Prod.fst)
        (by intro x; simp [or_comm])]
      simp

theorem mem_firstKeys : ∀ (l seen : List Platform) (x : Platform),
    x ∈ firstKeys seen l ↔ x ∈ l ∧ x ∉ seen := by
  intro l
  induction l with
  | nil => intro seen x; simp [firstKeys]
  | cons p rest ih =>
    intro seen x
    simp only [firstKeys]
    by_cases hp : p ∈ seen
    · rw [if_pos hp, ih]
      constructor
      · rintro ⟨h1, h2⟩
        exact ⟨List.mem_cons_of_mem _ h1, h2⟩
      · rintro ⟨h1, h2⟩
        rcases List.mem_cons.mp h1 with h | h
        · subst h; exact absurd hp h2
        · exact ⟨h, h2⟩
    · rw [if_neg hp]
      constructor
      · intro hx
        rcases List.mem_cons.mp hx with h | h
        · subst h
          exact ⟨List.mem_cons_self _ _, hp⟩
        · have hres := (ih (p :: seen) x).mp h
          exact ⟨List.mem_cons_of_mem _ hres.1,
            fun hxs => hres.2 (List.mem_cons_of_mem _ hxs)⟩
      · rintro ⟨h1, h2⟩
        rcases List.mem_cons.mp h1 with h | h
        · subst h
          exact List.mem_cons_self _ _
        · by_cases hxp : x = p
          · subst hxp
            exact List.mem_cons_self _ _
          · exact List.mem_cons_of_mem _
              ((ih (p :: seen) x).mpr ⟨h, by simp [List.mem_cons, hxp, h2]⟩)

theorem firstKeys_nodup : ∀ (l seen : List Platform), (firstKeys seen l).Nodup := by
  intro l
  induction l with
  | nil => intro seen; simp [firstKeys]
  | cons p rest ih =>
    intro seen
    simp only [firstKeys]
    by_cases hp : p ∈ seen
    · rw [if_pos hp]
      exact ih seen
    · rw [if_neg hp]
      refine List.nodup_cons.mpr ⟨?_, ih (p :: seen)⟩
      intro hmem
      exact ((mem_firstKeys rest (p :: seen) p).mp hmem).2 (List.mem_cons_self _ _)

/-- C5 (amended): the fan-out returns a dict, so it holds exactly one
`PublicationResult` per distinct requested platform — its keys are the
requested platforms with duplicates removed, in first-occurrence order — and a
platform occurring twice in the request does not get a second, separate entry. -/
theorem publish_one_result_per_distinct_platform
    (cfg : Platform → Option (Except String PublicationResult)) (platforms : List Platform) :
    (MultiPlatformPublisher.publish cfg platforms).map Prod.fst = firstKeys [] platforms ∧
    ((MultiPlatformPublisher.publish cfg platforms).map Prod.fst).Nodup ∧
    ∀ p, p ∈ (MultiPlatformPublisher.publish cfg platforms).map Prod.fst ↔ p ∈ platforms := by
  have hk : (MultiPlatformPublisher.publish cfg platforms).map Prod.fst =
      firstKeys [] platforms := by
    unfold MultiPlatformPublisher.publish
    rw [publishAll_keys]
    simp
  refine ⟨hk, hk ▸ firstKeys_nodup platforms [], ?_⟩
  intro p
  rw [hk, mem_firstKeys]
  simp

/-- C5 counterexample: requesting `[Medium, Medium]` with no publisher
configured yields a single entry, not the two separate per-occurrence results
the claim requires. -/
theorem publish_duplicates_collapse_cex :
    (MultiPlatformPublisher.publish (fun _ => none)
      [Platform.medium, Platform.medium]).length = 1 ∧
    (MultiPlatformPublisher.publish (fun _ => none)
      [Platform.medium, Platform.medium]).length ≠ 2 :=
  ⟨rfl, by decide⟩

theorem dictLookup_insert (q k : Platform) (v : PublicationResult) :
    ∀ d : List (Platform × PublicationResult),
    dictLookup q (dictInsert k v d) = if k = q then some v else dictLookup q d := by
  intro d
  induction d with
  | nil => by_cases h : k = q <;> simp [dictInsert, dictLookup, h]
  | cons kv rest ih =>
    obtain ⟨k0, v0⟩ := kv
    by_cases h : k0 = k
    · subst h
      by_cases h2 : k0 = q <;> simp [dictInsert, dictLookup, h2]
    · by_cases h2 : k0 = q
      · subst h2
        have hkq : ¬k = k0 := fun hh => h hh.symm
        simp [dictInsert, dictLookup, h, hkq]
      · simp [dictInsert, dictLookup, h, h2, ih]

theorem publishAll_lookup (cfg : Platform → Option (Except String PublicationResult)) :
    ∀ (ps : List Platform) (acc : List (Platform × PublicationResult)) (q : Platform),
    (q ∈ ps ∨ dictLookup q acc = some (attemptPublish cfg q)) →
    dictLookup q (publishAll cfg acc ps) = some (attemptPublish cfg q) := by
  intro ps
  induction ps with
  | nil =>
    intro acc q h
    rcases h with h | h
    · exact absurd h (List.not_mem_nil q)
    · exact h
  | cons p rest ih =>
    intro acc q h
    simp only [publishAll]
    apply ih
    by_cases hq : q = p
    · subst hq
      right
      rw [dictLookup_insert, if_pos rfl]
    · rcases h with h | h
      · rcases List.mem_cons.mp h with h2 | h2
        · exact absurd h2 hq
        · exact Or.inl h2
      · right
        rw [dictLookup_insert, if_neg (fun hh => hq hh.symm)]
        exact h

/-- C6: every requested platform ends up with an entry in the fan-out result
(no platform is skipped); a platform with no configured publisher gets a
synthetic failed result carrying the "not configured" message, and a platform
whose publisher raises gets a failed result carrying the exception's message. -/
theorem publish_unconfigured_and_exception
    (cfg : Platform → Option (Except String PublicationResult)) (platforms : List Platform)
    (p : Platform) (hp : p ∈ platforms) :
    dictLookup p (MultiPlatformPublisher.publish cfg platforms) =
      some (attemptPublish cfg p) ∧
    (cfg p = none → attemptPublish cfg p = failedResult p (notConfiguredMessage p) ∧
      (attemptPublish cfg p).success = false ∧
      (attemptPublish cfg p).error_message = some (notConfiguredMessage p)) ∧
    (∀ e, cfg p = some (Except.error e) → attemptPublish cfg p = failedResult p e ∧
      (attemptPublish cfg p).success = false ∧
      (attemptPublish cfg p).error_message = some e) := by
  refine ⟨publishAll_lookup cfg platforms [] p (Or.inl hp), ?_, ?_⟩
  · intro h
    simp [attemptPublish, h, failedResult]
  · intro e h
    simp [attemptPublish, h, failedResult]

/-- Witness for C6: with nothing configured, a requested platform gets the
synthetic "not configured" failure. -/
theorem publish_unconfigured_and_exception_witness :
    dictLookup Platform.medium (MultiPlatformPublisher.publish (fun _ => none)
        [Platform.medium, Platform.dev_to]) =
      some (attemptPublish (fun _ => none) Platform.medium) ∧
    ((fun (_ : Platform) => (none : Option (Except String PublicationResult)))
        Platform.medium = none →
      attemptPublish (fun _ => none) Platform.medium =
        failedResult Platform.medium (notConfiguredMessage Platform.medium) ∧
      (attemptPublish (fun _ => none) Platform.medium).success = false ∧
      (attemptPublish (fun _ => none) Platform.medium).error_message =
        some (notConfiguredMessage Platform.medium)) ∧
    (∀ e, (fun (_ : Platform) => (none : Option (Except String PublicationResult)))
        Platform.medium = some (Except.error e) →
      attemptPublish (fun _ => none) Platform.medium = failedResult Platform.medium e ∧
      (attemptPublish (fun _ => none) Platform.medium).success = false ∧
      (attemptPublish (fun _ => none) Platform.medium).error_message = some e) :=
  publish_unconfigured_and_exception (fun _ => none) [Platform.medium, Platform.dev_to]
    Platform.medium (by decide)

/-! ## C10: repository publication records -/

theorem findRecord_append (postId : Nat) (pl : Platform) :
    ∀ (l : List PubEntity) (e : PubEntity),
    findRecord postId pl (l ++ [e]) =
      match findRecord postId pl l with
      | some x => some x
      | none => if e.post_id = postId ∧ e.platform = pl then some e else none := by
  intro l e
  induction l with
  | nil => simp [findRecord]
  | cons a rest ih =>
    by_cases h : a.post_id = postId ∧ a.platform = pl
    · simp [findRecord, h]
    · simp [findRecord, h, ih]

theorem countRecords_append (postId : Nat) (pl : Platform) :
    ∀ (l : List PubEntity) (e : PubEntity),
    countRecords postId pl (l ++ [e]) =
      countRecords postId pl l + (if e.post_id = postId ∧ e.platform = pl then 1 else 0) := by
  intro l e
  induction l with
  | nil => simp [countRecords]
  | cons a rest ih =>
    simp only [List.cons_append, countRecords, List.append_eq]
    rw [ih]
    omega

theorem countRecords_zero_of_findRecord_none (postId : Nat) (pl : Platform) :
    ∀ l : List PubEntity, findRecord postId pl l = none → countRecords postId pl l = 0 := by
  intro l
  induction l with
  | nil => intro _; rfl
  | cons a rest ih =>
    intro h
    by_cases ha : a.post_id = postId ∧ a.platform = pl
    · simp [findRecord, ha] at h
    · simp only [findRecord, if_neg ha] at h
      simp [countRecords, ha, ih h]

/-- Core property of the `save` publications loop: for each platform, an
already-stored record survives unchanged, and otherwise exactly the first
in-memory result for that platform (if any) becomes the stored record; the
per-platform record count never exceeds one. -/
theorem savePublications_spec (postId : Nat) (pl : Platform) :
    ∀ (pubs : List PublicationResult) (stored : List PubEntity),
    (findRecord postId pl (savePublications postId stored pubs) =
      (match findRecord postId pl stored with
       | some e => some e
       | none => Option.map (entityOf postId)
           (pubs.find? (fun r => decide (r.platform = pl))))) ∧
    (countRecords postId pl stored ≤ 1 →
      countRecords postId pl (savePublications postId stored pubs) ≤ 1) := by
  intro pubs
  induction pubs with
  | nil =>
    intro stored
    constructor
    · simp only [savePublications, List.find?_nil, Option.map_none]
      cases findRecord postId pl stored <;> rfl
    · intro h
      simpa [savePublications] using h
  | cons pub rest ih =>
    intro stored
    simp only [savePublications]
    cases hfp : findRecord postId pub.platform stored with
    | some e0 =>
      refine ⟨?_, (ih stored).2⟩
      rw [(ih stored).1]
      by_cases hpl : pub.platform = pl
      · subst hpl
        rw [hfp]
      · rw [List.find?_cons_of_neg _ (by simp [hpl])]
    | none =>
      have hcount : countRecords postId pub.platform stored = 0 :=
        countRecords_zero_of_findRecord_none postId pub.platform stored hfp
      constructor
      · rw [(ih (stored ++ [entityOf postId pub])).1]
        rw [findRecord_append]
        by_cases hpl : pub.platform = pl
        · subst hpl
          rw [hfp]
          simp [entityOf, List.find?_cons_of_pos]
        · have hent : ¬((entityOf postId pub).post_id = postId ∧
              (entityOf postId pub).platform = pl) := by
            simp [entityOf, hpl]
          rw [if_neg hent]
          rw [List.find?_cons_of_neg _ (by simp [hpl])]
          cases findRecord postId pl stored <;> rfl
      · intro h
        apply (ih (stored ++ [entityOf postId pub])).2
        rw [countRecords_append]
        by_cases hpl : pub.platform = pl
        · subst hpl
          have : countRecords postId pub.platform stored = 0 := hcount
          simp [entityOf]
          omega
        · simp [entityOf, hpl]
          omega

/-- C10: `save` persists at most one publication record per platform — an
already-stored record is never overwritten by a later result, and when none is
stored yet, only the first in-memory entry for that platform is inserted. -/
theorem save_at_most_one_record_per_platform (postId : Nat) (pl : Platform)
    (stored : List PubEntity) (pubs : List PublicationResult)
    (h1 : countRecords postId pl stored ≤ 1) :
    countRecords postId pl (savePublications postId stored pubs) ≤ 1 ∧
    findRecord postId pl (savePublications postId stored pubs) =
      (match findRecord postId pl stored with
       | some e => some e
       | none => Option.map (entityOf postId)
           (pubs.find? (fun r => decide (r.platform = pl)))) :=
  ⟨(savePublications_spec postId pl pubs stored).2 h1,
   (savePublications_spec postId pl pubs stored).1⟩

/-- A successful Medium result followed by a failed duplicate for the same
platform. -/
def pubM1 : PublicationResult :=
  { platform := Platform.medium, success := true, url := some "https://medium.com/p/1" }

/-- The duplicate failed Medium result. -/
def pubM2 : PublicationResult := failedResult Platform.medium "second attempt"

/-- Witness for C10: saving a post with two in-memory Medium results into an
empty table stores exactly one record — the one made from the first result. -/
theorem save_at_most_one_record_per_platform_witness :
    countRecords 1 Platform.medium (savePublications 1 [] [pubM1, pubM2]) ≤ 1 ∧
    findRecord 1 Platform.medium (savePublications 1 [] [pubM1, pubM2]) =
      (match findRecord 1 Platform.medium ([] : List PubEntity) with
       | some e => some e
       | none => Option.map (entityOf 1)
           (([pubM1, pubM2].find? (fun r => decide (r.platform = Platform.medium))))) :=
  save_at_most_one_record_per_platform 1 Platform.medium [] [pubM1, pubM2] (by decide)
